import Mathlib

/-!
Shallow embedding of the Application_orderbook backend (TypeScript) in Lean 4.

Modelling conventions:
- Money amounts are modelled as exact rationals (the source uses JS numbers);
  item quantities are integers.
- The Postgres database is a record of association lists keyed by id strings.
- Connection semantics are modelled explicitly: statements issued through
  `DatabaseService.executeQuery` / the item service run on their own pooled
  connection and auto-commit immediately against the committed state, while
  statements issued on the client passed to `executeTransaction` are buffered
  and only become visible at COMMIT (discarded on ROLLBACK).  This mirrors
  `database.service.ts` (`executeTransaction` = BEGIN/COMMIT/ROLLBACK on one
  pool client, `executeQuery` = a fresh pool client per call).
- Fallible code returns `Except String`, the string being the thrown message.
- Nondeterministic fresh identifiers (uuidv4, order numbers) are passed in as
  parameters.
-/

namespace OB

/-- Order status enum from `types/index.ts` (`export enum OrderStatus`). -/
inductive OrderStatus where
  | DRAFT
  | PENDING
  | CONFIRMED
  | PROCESSING
  | PACKED
  | SHIPPED
  | OUT_FOR_DELIVERY
  | DELIVERED
  | CANCELLED
  | REFUNDED
  | RETURNED
  | FAILED
deriving DecidableEq, Repr, BEq

/-- String value of each `OrderStatus` enum member (the TS enum members are
string-valued, used verbatim in error messages). -/
def statusName : OrderStatus → String
  | .DRAFT => "DRAFT"
  | .PENDING => "PENDING"
  | .CONFIRMED => "CONFIRMED"
  | .PROCESSING => "PROCESSING"
  | .PACKED => "PACKED"
  | .SHIPPED => "SHIPPED"
  | .OUT_FOR_DELIVERY => "OUT_FOR_DELIVERY"
  | .DELIVERED => "DELIVERED"
  | .CANCELLED => "CANCELLED"
  | .REFUNDED => "REFUNDED"
  | .RETURNED => "RETURNED"
  | .FAILED => "FAILED"

/-- The `validTransitions` table of `OrderService.isValidStatusTransition`
(order.service.ts, lines 448-465). -/
def validTransitions : OrderStatus → List OrderStatus
  | .DRAFT => [.PENDING, .CANCELLED]
  | .PENDING => [.CONFIRMED, .CANCELLED]
  | .CONFIRMED => [.PROCESSING, .CANCELLED]
  | .PROCESSING => [.PACKED, .CANCELLED]
  | .PACKED => [.SHIPPED]
  | .SHIPPED => [.OUT_FOR_DELIVERY]
  | .OUT_FOR_DELIVERY => [.DELIVERED, .FAILED]
  | .DELIVERED => [.RETURNED]
  | .CANCELLED => []
  | .REFUNDED => []
  | .RETURNED => [.REFUNDED]
  | .FAILED => [.CANCELLED, .PENDING]

/-- `OrderService.isValidStatusTransition` (order.service.ts). -/
def isValidStatusTransition (currentStatus newStatus : OrderStatus) : Bool :=
  (validTransitions currentStatus).contains newStatus

/-- Transition table written from the spec, section 4.3 (refinement
reference; compared against `isValidStatusTransition` which is translated
from the code). -/
def specAllowedTransition : OrderStatus → OrderStatus → Bool
  | .DRAFT, .PENDING => true
  | .DRAFT, .CANCELLED => true
  | .PENDING, .CONFIRMED => true
  | .PENDING, .CANCELLED => true
  | .CONFIRMED, .PROCESSING => true
  | .CONFIRMED, .CANCELLED => true
  | .PROCESSING, .PACKED => true
  | .PROCESSING, .CANCELLED => true
  | .PACKED, .SHIPPED => true
  | .SHIPPED, .OUT_FOR_DELIVERY => true
  | .OUT_FOR_DELIVERY, .DELIVERED => true
  | .OUT_FOR_DELIVERY, .FAILED => true
  | .DELIVERED, .RETURNED => true
  | .RETURNED, .REFUNDED => true
  | .FAILED, .CANCELLED => true
  | .FAILED, .PENDING => true
  | _, _ => false

/-- `OrderService.canBeCancelled` (order.service.ts, lines 467-474). -/
def canBeCancelled (status : OrderStatus) : Bool :=
  [OrderStatus.DRAFT, OrderStatus.PENDING,
   OrderStatus.CONFIRMED, OrderStatus.PROCESSING].contains status

/-- Hex digit test for the uuid regex character class `[0-9a-f]` with the
case-insensitive flag. -/
def isHexChar (c : Char) : Bool :=
  ('0' ≤ c && c ≤ '9') || ('a' ≤ c && c ≤ 'f') || ('A' ≤ c && c ≤ 'F')

/-- Per-position character test of the uuid regex
`[0-9a-f]\x7b8\x7d-[0-9a-f]\x7b4\x7d-[1-5][0-9a-f]\x7b3\x7d-[89ab][0-9a-f]\x7b3\x7d-[0-9a-f]\x7b12\x7d`
(case-insensitive) used by `isValidUuid` in both services. -/
def uuidCharOk (i : Nat) (c : Char) : Bool :=
  if i == 8 || i == 13 || i == 18 || i == 23 then c == '-'
  else if i == 14 then '1' ≤ c && c ≤ '5'
  else if i == 19 then c == '8' || c == '9' || c == 'a' || c == 'b' || c == 'A' || c == 'B'
  else isHexChar c

/-- `isValidUuid` (item.service.ts / order.service.ts): the uuid regex test. -/
def isValidUuid (s : String) : Bool :=
  s.toList.length == 36 && s.toList.enum.all (fun p => uuidCharOk p.1 p.2)

/-- A `customer_items` row (columns relevant to the verified claims;
timestamp columns are omitted, no claim mentions them). -/
structure ItemRec where
  customerId : String
  name : String
  description : Option String
  price : ℚ
  quantity : ℤ
  status : String
deriving DecidableEq, Repr

/-- An `orders` row (timestamp columns omitted). -/
structure OrderRec where
  customerId : String
  totalAmount : ℚ
  status : OrderStatus
  deliveryDate : Option String
  notes : Option String
  paymentStatus : String
  shippingAddress : Option String
  discount : ℚ
  taxAmount : ℚ
  shippingCost : ℚ
  orderNumber : String
  priority : String
deriving DecidableEq, Repr

/-- An `order_items` row. -/
structure OrderItemRow where
  id : String
  orderId : String
  itemId : String
  name : String
  description : Option String
  price : ℚ
  quantity : ℤ
  subtotal : ℚ
  discountAmount : ℚ
  taxAmount : ℚ
  sku : Option String
deriving DecidableEq, Repr

/-- The committed database state: customers (ids only — only existence is
consulted by the verified code paths), customer_items, orders, order_items. -/
structure DbState where
  customers : List String
  items : List (String × ItemRec)
  orders : List (String × OrderRec)
  orderItems : List OrderItemRow
deriving DecidableEq, Repr

/-- SELECT a customer_items row by primary key. -/
def lookupItem (s : DbState) (id : String) : Option ItemRec :=
  (s.items.find? (fun p => p.1 == id)).map (fun p => p.2)

/-- SELECT an orders row by primary key. -/
def lookupOrder (s : DbState) (id : String) : Option OrderRec :=
  (s.orders.find? (fun p => p.1 == id)).map (fun p => p.2)

/-- UPDATE customer_items SET quantity = q WHERE id = id
(`DatabaseService.updateCustomerItem` invoked with a quantity-only patch). -/
def dbSetItemQuantity (s : DbState) (id : String) (q : ℤ) : DbState :=
  { s with
    items := s.items.map
      (fun p => if p.1 == id then (p.1, { p.2 with quantity := q }) else p) }

/-- The three quantity operations of `ItemService.updateItemQuantity`. -/
inductive QtyOp where
  | set
  | add
  | subtract
deriving DecidableEq, Repr

/-- `ItemService.updateItemQuantity` (item.service.ts, lines 252-303).
Validates the id, reads the current row, computes the new quantity
(`add`: q0 + q; `subtract`: max 0 (q0 - q); `set`: q), throws
"Quantity cannot be negative" if the result is negative, and writes it via
`DatabaseService.updateCustomerItem` (its own pooled connection: the write
auto-commits against the committed state, independent of any transaction a
caller may have open). -/
def updateItemQuantity (s : DbState) (id : String) (quantity : ℤ) (operation : QtyOp) :
    Except String (Option ItemRec × DbState) :=
  if !(isValidUuid id) then .error "Invalid item ID format"
  else
    match lookupItem s id with
    | none => .ok (none, s)
    | some existingItem =>
      let newQuantity : ℤ :=
        match operation with
        | .add => existingItem.quantity + quantity
        | .subtract => max 0 (existingItem.quantity - quantity)
        | .set => quantity
      if newQuantity < 0 then .error "Quantity cannot be negative"
      else
        let s2 := dbSetItemQuantity s id newQuantity
        .ok (lookupItem s2 id, s2)

/-- `ItemService.getCustomerItemById` (item.service.ts): id validation then
a committed-state SELECT. -/
def getCustomerItemByIdM (s : DbState) (id : String) : Except String (Option ItemRec) :=
  if !(isValidUuid id) then .error "Invalid item ID format"
  else .ok (lookupItem s id)

/-- One entry of `CreateOrderRequest.items` (types/index.ts,
`CreateOrderItemRequest`). -/
structure CreateOrderItemReq where
  itemId : String
  quantity : ℤ
deriving DecidableEq, Repr

/-- `CreateOrderRequest` (types/index.ts), the fields read by
`OrderService.createOrder`. -/
structure CreateOrderRequest where
  customerId : String
  items : List CreateOrderItemReq
  deliveryDate : Option String
  notes : Option String
  shippingAddress : Option String
  priority : Option String
deriving DecidableEq, Repr

/-- The `OrderItem` snapshot built inside `createOrder`
(types/index.ts, `OrderItem`). -/
structure OrderItem where
  id : String
  itemId : String
  name : String
  description : Option String
  price : ℚ
  quantity : ℤ
  subtotal : ℚ
  discountAmount : ℚ
  taxAmount : ℚ
  sku : Option String
deriving DecidableEq, Repr

/-- Fresh identifiers that the source draws from `uuidv4()` and
`generateOrderNumber()`, passed in explicitly. -/
structure FreshIds where
  orderId : String
  orderNumber : String
  itemIdGen : Nat → String

/-- `OrderService.calculateShippingCost` (order.service.ts, lines 482-486). -/
def calculateShippingCost (orderAmount : ℚ) : ℚ :=
  if orderAmount ≥ 100 then 0
  else if orderAmount ≥ 50 then 5
  else 10

/-- The per-request-item loop of `createOrder` (order.service.ts, lines
102-138): for each requested item it reads the item through the item service
(a committed-state read on its own connection), validates ownership and
stock, builds the `OrderItem` snapshot (10 percent tax on the subtotal), and
decrements the stock via `ItemService.updateItemQuantity` — which
auto-commits on its own connection, outside the surrounding transaction.
Errors carry the committed state at the moment of the throw (mutations made
by earlier iterations have already committed and survive the rollback). -/
def createOrderLoop (custId : String) (gen : Nat → String) :
    DbState → Nat → List CreateOrderItemReq →
    Except (String × DbState) (DbState × List OrderItem)
  | s, _, [] => .ok (s, [])
  | s, idx, r :: rest =>
    match getCustomerItemByIdM s r.itemId with
    | .error e => .error (e, s)
    | .ok none => .error ("Item with ID " ++ r.itemId ++ " not found", s)
    | .ok (some item) =>
      if item.customerId ≠ custId then
        .error ("Item " ++ r.itemId ++ " does not belong to customer " ++ custId, s)
      else if item.quantity < r.quantity then
        .error ("Insufficient quantity for item " ++ item.name ++ ". Available: "
          ++ toString item.quantity ++ ", Requested: " ++ toString r.quantity, s)
      else
        let subtotal := item.price * (r.quantity : ℚ)
        let oi : OrderItem :=
          { id := gen idx
            itemId := r.itemId
            name := item.name
            description := item.description
            price := item.price
            quantity := r.quantity
            subtotal := subtotal
            discountAmount := 0
            taxAmount := subtotal * (1/10)
            sku := none }
        match updateItemQuantity s r.itemId r.quantity .subtract with
        | .error e => .error (e, s)
        | .ok (_, s2) =>
          match createOrderLoop custId gen s2 (idx + 1) rest with
          | .error es => .error es
          | .ok (s3, ois) => .ok (s3, oi :: ois)

/-- Schema CHECK constraints enforced by Postgres when the buffered
`INSERT INTO orders` / `INSERT INTO order_items` statements run
(database.service.ts, `createTables`): order_items requires price >= 0,
quantity > 0, subtotal >= 0; orders requires total_amount >= 0. -/
def insertChecksOk (ois : List OrderItem) (finalTotal : ℚ) : Bool :=
  ois.all (fun oi => 0 ≤ oi.price && 0 < oi.quantity && 0 ≤ oi.subtotal)
    && 0 ≤ finalTotal

/-- COMMIT of the order-creation transaction: apply the buffered order and
order_items inserts to the committed state. -/
def commitCreatedOrder (s : DbState) (orderId : String) (rec : OrderRec)
    (rows : List OrderItemRow) : DbState :=
  { s with
    orders := s.orders ++ [(orderId, rec)]
    orderItems := s.orderItems ++ rows }

/-- The `order_items` row inserted for an `OrderItem` snapshot. -/
def toOrderItemRow (orderId : String) (oi : OrderItem) : OrderItemRow :=
  { id := oi.id
    orderId := orderId
    itemId := oi.itemId
    name := oi.name
    description := oi.description
    price := oi.price
    quantity := oi.quantity
    subtotal := oi.subtotal
    discountAmount := oi.discountAmount
    taxAmount := oi.taxAmount
    sku := oi.sku }

/-- Result of a successful `createOrder`: the new order id, the orders row,
and the item snapshots. -/
structure CreatedOrder where
  orderId : String
  order : OrderRec
  items : List OrderItem
deriving DecidableEq, Repr

/-- `OrderService.createOrder` on a `CreateOrderRequest` (order.service.ts,
lines 22-212, request branch).  It runs inside
`DatabaseService.executeTransaction`, but only the `INSERT INTO orders` and
`INSERT INTO order_items` statements use the transaction client; the
customer/item reads and the stock decrements go through service methods on
separate auto-commit connections.  On any throw the transaction rolls back:
the buffered inserts are discarded, while decrements already executed by
`updateItemQuantity` stay committed.  Returns the result together with the
final committed state. -/
def createOrder (s : DbState) (req : CreateOrderRequest) (fresh : FreshIds) :
    Except String CreatedOrder × DbState :=
  if !(s.customers.contains req.customerId) then
    (.error ("Customer with ID " ++ req.customerId ++ " not found"), s)
  else
    match createOrderLoop req.customerId fresh.itemIdGen s 0 req.items with
    | .error (e, s2) => (.error e, s2)
    | .ok (s2, orderItems) =>
      let totalAmount := (orderItems.map (fun oi => oi.subtotal)).sum
      let totalTax := (orderItems.map (fun oi => oi.taxAmount)).sum
      let shippingCost := calculateShippingCost totalAmount
      let finalTotal := totalAmount + totalTax + shippingCost
      let orderRec : OrderRec :=
        { customerId := req.customerId
          totalAmount := finalTotal
          status := .PENDING
          deliveryDate := req.deliveryDate
          notes := req.notes
          paymentStatus := "PENDING"
          shippingAddress := req.shippingAddress
          discount := 0
          taxAmount := totalTax
          shippingCost := shippingCost
          orderNumber := fresh.orderNumber
          priority := req.priority.getD "NORMAL" }
      let rows := orderItems.map (toOrderItemRow fresh.orderId)
      if insertChecksOk orderItems finalTotal then
        (.ok ⟨fresh.orderId, orderRec, orderItems⟩,
         commitCreatedOrder s2 fresh.orderId orderRec rows)
      else
        (.error "order insert violates a check constraint", s2)

/-- `OrderService.getOrderById` (order.service.ts, lines 214-267): id
validation, then committed-state SELECTs of the order and its line rows. -/
def getOrderByIdM (s : DbState) (id : String) :
    Except String (Option (OrderRec × List OrderItemRow)) :=
  if !(isValidUuid id) then .error "Invalid order ID format"
  else
    match lookupOrder s id with
    | none => .ok none
    | some rec => .ok (some (rec, s.orderItems.filter (fun r => r.orderId == id)))

/-- `UpdateOrderRequest` (types/index.ts), the fields `updateOrder`
consults.  The outer `Option` is "field present in the patch" (the source
checks `!== null && !== undefined`, or `!== undefined` for nullable text
columns whose inner value may be null). -/
structure UpdateOrderRequest where
  status : Option OrderStatus
  deliveryDate : Option (Option String)
  notes : Option (Option String)
  paymentStatus : Option String
  shippingAddress : Option (Option String)
  priority : Option String
deriving DecidableEq, Repr

/-- Whether `updateOrder` has at least one field to write
(mirrors `updateFields.length === 0`). -/
def hasUpdateFields (u : UpdateOrderRequest) : Bool :=
  u.status.isSome || u.deliveryDate.isSome || u.notes.isSome
    || u.paymentStatus.isSome || u.shippingAddress.isSome || u.priority.isSome

/-- Apply the UPDATE statement built by `updateOrder` to one orders row. -/
def applyOrderUpdate (u : UpdateOrderRequest) (rec : OrderRec) : OrderRec :=
  { rec with
    status := u.status.getD rec.status
    deliveryDate := u.deliveryDate.getD rec.deliveryDate
    notes := u.notes.getD rec.notes
    paymentStatus := u.paymentStatus.getD rec.paymentStatus
    shippingAddress := u.shippingAddress.getD rec.shippingAddress
    priority := u.priority.getD rec.priority }

/-- UPDATE orders SET ... WHERE id = id on the committed state. -/
def dbUpdateOrder (s : DbState) (id : String) (f : OrderRec → OrderRec) : DbState :=
  { s with
    orders := s.orders.map (fun p => if p.1 == id then (p.1, f p.2) else p) }

/-- `OrderService.updateOrder` (order.service.ts, lines 269-349): id
validation, existence check, status-transition validation (throwing
"Invalid status transition from A to B" before anything is written), then a
single auto-commit UPDATE of the provided fields. -/
def updateOrder (s : DbState) (id : String) (updates : UpdateOrderRequest) :
    Except String (Option OrderRec) × DbState :=
  if !(isValidUuid id) then (.error "Invalid order ID format", s)
  else
    match lookupOrder s id with
    | none => (.ok none, s)
    | some existingOrder =>
      match updates.status with
      | some newStatus =>
        if !(isValidStatusTransition existingOrder.status newStatus) then
          (.error ("Invalid status transition from " ++ statusName existingOrder.status
            ++ " to " ++ statusName newStatus), s)
        else
          if !(hasUpdateFields updates) then (.ok (some existingOrder), s)
          else
            let s2 := dbUpdateOrder s id (applyOrderUpdate updates)
            (.ok (lookupOrder s2 id), s2)
      | none =>
        if !(hasUpdateFields updates) then (.ok (some existingOrder), s)
        else
          let s2 := dbUpdateOrder s id (applyOrderUpdate updates)
          (.ok (lookupOrder s2 id), s2)

/-- The SET clause of the cancellation UPDATE (order.service.ts, lines
364-371): status := CANCELLED and
notes := COALESCE(notes || sep, empty) || cancellation message. -/
def applyCancelUpdate (reason : Option String) (rec : OrderRec) : OrderRec :=
  let msg := "Cancelled: " ++ reason.getD "No reason provided"
  { rec with
    status := .CANCELLED
    notes :=
      match rec.notes with
      | none => some msg
      | some old => some (old ++ " | " ++ msg) }

/-- The quantity-restore loop of `cancelOrder` (order.service.ts, lines
373-376): each `ItemService.updateItemQuantity(_, _, add)` call runs on its
own connection and auto-commits immediately.  Errors carry the committed
state at the throw. -/
def restoreLoop : DbState → List OrderItemRow → Except (String × DbState) DbState
  | s, [] => .ok s
  | s, r :: rest =>
    match updateItemQuantity s r.itemId r.quantity .add with
    | .error e => .error (e, s)
    | .ok (_, s2) => restoreLoop s2 rest

/-- Result of `cancelOrder`.  `preCommit` is the committed database state
at the point just after the restore loop and the in-transaction read, before
the transaction's COMMIT makes the buffered status UPDATE visible — the
state any concurrent reader (or a crash before COMMIT) observes.  On paths
that never reach the transaction, `preCommit = final`. -/
structure CancelResult where
  result : Except String (Option (OrderRec × List OrderItemRow))
  preCommit : DbState
  final : DbState
deriving Repr

/-- `OrderService.cancelOrder` (order.service.ts, lines 351-390): reads the
order on a plain connection, gates on `canBeCancelled`, then inside
`executeTransaction` buffers the status UPDATE on the transaction client,
runs the restore loop through the item service (auto-commit connections),
re-reads the order on a plain connection (which therefore still sees the
pre-cancellation status), and finally COMMITs the buffered UPDATE. -/
def cancelOrder (s : DbState) (id : String) (reason : Option String) : CancelResult :=
  match getOrderByIdM s id with
  | .error e => ⟨.error e, s, s⟩
  | .ok none => ⟨.ok none, s, s⟩
  | .ok (some (existingOrder, rows)) =>
    if !(canBeCancelled existingOrder.status) then
      ⟨.error ("Order with status " ++ statusName existingOrder.status
        ++ " cannot be cancelled"), s, s⟩
    else
      match restoreLoop s rows with
      | .error (e, sMid) => ⟨.error e, sMid, sMid⟩
      | .ok sMid =>
        let returned := getOrderByIdM sMid id
        let sFinal := dbUpdateOrder sMid id (applyCancelUpdate reason)
        ⟨returned, sMid, sFinal⟩

/-- `OrderService.deleteOrder` (order.service.ts, lines 392-423): id
validation, existence check, then a transaction deleting the line rows and
the order (both on the transaction client; nothing else runs inside, so the
transaction always commits). -/
def deleteOrder (s : DbState) (id : String) : Except String Bool × DbState :=
  if !(isValidUuid id) then (.error "Invalid order ID format", s)
  else
    match lookupOrder s id with
    | none => (.ok false, s)
    | some _ =>
      let s2 : DbState :=
        { s with
          orders := s.orders.filter (fun p => !(p.1 == id))
          orderItems := s.orderItems.filter (fun r => !(r.orderId == id)) }
      (.ok true, s2)

/-- Kafka producer connection state consulted by
`KafkaService.publishEvent` (kafka.ts, lines 111-140). -/
structure KafkaState where
  connected : Bool
deriving DecidableEq, Repr

/-- The `originalEvent` block embedded in every outcome event
(event.processors.ts, lines 371-375). -/
structure OrigEvent where
  eventId : String
  eventType : String
  correlationId : Option String
deriving DecidableEq, Repr

/-- The `data` payload of an order outcome event: one constructor per shape
the order dispatch produces (`responseData` is untyped in the source). -/
inductive ResponseData where
  | createdOrder (c : CreatedOrder)
  | updatedOrder (o : Option OrderRec)
  | cancelledOrder (o : Option (OrderRec × List OrderItemRow))
  | foundOrder (o : Option (OrderRec × List OrderItemRow))
  | deleteOutcome (deleted : Bool) (orderId : String)
  | serviceError (msg : String)
deriving DecidableEq, Repr

/-- An outcome event as built by `EventProcessor.publishUpdateEvent`
(event.processors.ts, lines 363-378 and 386-408). -/
structure OutcomeEvent where
  topic : String
  eventType : String
  success : Bool
  data : ResponseData
  error : Option String
  original : OrigEvent
deriving DecidableEq, Repr

/-- An order request event after `JSON.parse` (the untyped `event.data` is
modelled as the union of the fields each dispatch branch reads). -/
structure OrderEventMsg where
  eventId : String
  eventType : String
  correlationId : Option String
  dataReq : CreateOrderRequest
  dataId : String
  dataReason : Option String
  dataOrderId : String
  dataUpd : UpdateOrderRequest
deriving Repr

/-- `EventProcessor.getOrderFailureEventType` (event.processors.ts,
lines 429-437). -/
def getOrderFailureEventType (eventType : String) : String :=
  if eventType == "ORDER_CREATED" then "ORDER_CREATED_FAILED"
  else if eventType == "ORDER_UPDATED" then "ORDER_UPDATED_FAILED"
  else if eventType == "ORDER_CANCELLED" then "ORDER_CANCEL_FAILED"
  else if eventType == "ORDER_DELETED" then "ORDER_DELETE_FAILED"
  else "ORDER_UPDATED_FAILED"

/-- The event types recognized by the `switch` of
`EventProcessor.handleOrderEvent` (event.processors.ts, lines 309-355). -/
def orderRequestTypes : List String :=
  ["ORDER_CREATED", "ORDER_UPDATED", "ORDER_CANCELLED",
   "ORDER_REQUESTED", "ORDER_DELETED"]

/-- The fixed topic names of `config.Kafka.topics` (config.ts). -/
def orderUpdatesTopic : String := "order-updates"

/-- `KafkaService.publishEvent` (kafka.ts, lines 111-140): throws
"Kafka producer not connected" when the producer is down, otherwise the
event reaches the topic.  `EventProcessor.publishUpdateEvent` wraps it,
rethrowing failures. -/
def publishUpdateEvent (k : KafkaState) (topic : String) (eventType : String)
    (success : Bool) (data : ResponseData) (err : Option String)
    (original : OrigEvent) : Except String OutcomeEvent :=
  if k.connected then .ok ⟨topic, eventType, success, data, err, original⟩
  else .error "Kafka producer not connected"

/-- Outcome of one dispatch branch before publication: the update event
type, `success`, `errorMessage`, `responseData`, and the committed state. -/
structure DispatchOutcome where
  updateEventType : String
  success : Bool
  errorMessage : Option String
  responseData : ResponseData
  state : DbState
deriving Repr

/-- The inner try/switch of `EventProcessor.handleOrderEvent`
(event.processors.ts, lines 308-355) without its catch: dispatches on
`eventType` and calls exactly one `OrderService` method.  A `.error` is a
throw by the service call (to be converted by the inner catch); the state
component is the committed state when the call returns or throws. -/
def runOrderService (s : DbState) (ev : OrderEventMsg) (fresh : FreshIds) :
    Except (String × DbState) DispatchOutcome :=
  if ev.eventType == "ORDER_CREATED" then
    match createOrder s ev.dataReq fresh with
    | (.ok created, s2) =>
      .ok ⟨"ORDER_CREATED_SUCCESS", true, none, .createdOrder created, s2⟩
    | (.error m, s2) => .error (m, s2)
  else if ev.eventType == "ORDER_UPDATED" then
    match updateOrder s ev.dataId ev.dataUpd with
    | (.ok (some o), s2) =>
      .ok ⟨"ORDER_UPDATED_SUCCESS", true, none, .updatedOrder (some o), s2⟩
    | (.ok none, s2) =>
      .ok ⟨"ORDER_UPDATED_FAILED", false, some "Order not found", .updatedOrder none, s2⟩
    | (.error m, s2) => .error (m, s2)
  else if ev.eventType == "ORDER_CANCELLED" then
    match (cancelOrder s ev.dataId ev.dataReason).result,
          (cancelOrder s ev.dataId ev.dataReason).final with
    | .ok (some o), s2 =>
      .ok ⟨"ORDER_CANCELLED_SUCCESS", true, none, .cancelledOrder (some o), s2⟩
    | .ok none, s2 =>
      .ok ⟨"ORDER_CANCEL_FAILED", false, some "Order not found or cannot be cancelled",
        .cancelledOrder none, s2⟩
    | .error m, s2 => .error (m, s2)
  else if ev.eventType == "ORDER_REQUESTED" then
    match getOrderByIdM s ev.dataOrderId with
    | .ok (some o) => .ok ⟨"ORDER_FOUND", true, none, .foundOrder (some o), s⟩
    | .ok none => .ok ⟨"ORDER_NOT_FOUND", false, some "Order not found", .foundOrder none, s⟩
    | .error m => .error (m, s)
  else if ev.eventType == "ORDER_DELETED" then
    match deleteOrder s ev.dataId with
    | (.ok true, s2) => .ok ⟨"ORDER_DELETED_SUCCESS", true, none, .deleteOutcome true ev.dataId, s2⟩
    | (.ok false, s2) =>
      .ok ⟨"ORDER_DELETE_FAILED", false, some "Order not found or could not be deleted",
        .deleteOutcome false ev.dataId, s2⟩
    | (.error m, s2) => .error (m, s2)
  else
    .error ("", s)

/-- Result of one `handleOrderEvent` invocation: whether the handler
returned normally or threw, the committed state, and the outcome events
that reached the outcome topic. -/
structure HandlerOutput where
  result : Except String Unit
  state : DbState
  published : List OutcomeEvent
deriving Repr

/-- `EventProcessor.handleOrderEvent` (event.processors.ts, lines 293-384).
The input is the `JSON.parse` result of the consumed message (`.error` for
a malformed payload, whose throw the outer catch logs and rethrows).  A
recognized event type runs exactly one service call; a service throw is
converted by the inner catch into a failure outcome; then exactly one
outcome event is published to order-updates.  An unknown event type is
logged and dropped (early `return`, nothing published).  A publish failure
escapes through the outer catch, which logs and rethrows. -/
def handleOrderEvent (k : KafkaState) (s : DbState)
    (parsed : Except String OrderEventMsg) (fresh : FreshIds) : HandlerOutput :=
  match parsed with
  | .error m => ⟨.error m, s, []⟩
  | .ok ev =>
    if !(orderRequestTypes.contains ev.eventType) then ⟨.ok (), s, []⟩
    else
      let afterSwitch : DispatchOutcome :=
        match runOrderService s ev fresh with
        | .ok d => d
        | .error (m, s2) =>
          ⟨getOrderFailureEventType ev.eventType, false, some m, .serviceError m, s2⟩
      let original : OrigEvent := ⟨ev.eventId, ev.eventType, ev.correlationId⟩
      match publishUpdateEvent k orderUpdatesTopic afterSwitch.updateEventType
          afterSwitch.success afterSwitch.responseData afterSwitch.errorMessage original with
      | .ok evt => ⟨.ok (), afterSwitch.state, [evt]⟩
      | .error m => ⟨.error m, afterSwitch.state, []⟩

/-- The `eachMessage` wrapper installed by `KafkaService.subscribeToTopic`
(kafka.ts, lines 153-168): it catches a handler throw, logs it, and
rethrows it to the kafkajs consumer runner — it does not absorb it. -/
def eachMessageRun (handlerResult : Except String Unit) : Except String Unit :=
  match handlerResult with
  | .ok () => .ok ()
  | .error e => .error e

/-- Behaviour of the underlying ioredis connection for one GET: either the
stored string (absent/empty modelled as `none`, matching the falsy check
`if (!value)`), or a thrown connection error. -/
inductive RedisGetConn where
  | value (v : Option String)
  | connError (msg : String)
deriving DecidableEq, Repr

/-- `RedisService.get` (redies.service.ts, lines 68-78): GET the key, return
null for a falsy value, otherwise `JSON.parse` it (`decode`; a parse throw
is caught too); any caught error yields null — graceful degradation. -/
def redisGet {α : Type} (conn : String → RedisGetConn) (decode : String → Option α)
    (key : String) : Option α :=
  match conn key with
  | .connError _ => none
  | .value none => none
  | .value (some v) =>
    match decode v with
    | some parsed => some parsed
    | none => none

/-- `RedisService.set` (redies.service.ts, lines 80-95): SET/SETEX the
serialized value; a thrown connection error is caught and the call returns
false, otherwise true.  `conn` is the write acknowledgment of the
underlying connection for this key/value/ttl. -/
def redisSet (conn : Except String Unit) (_key : String) (_serialized : String)
    (_ttl : Option Nat) : Bool :=
  match conn with
  | .ok _ => true
  | .error _ => false

/-- A subscription record (`WebSocketSubscription`, types/index.ts), as
appended by `WebSocketService.handleSubscription`. -/
structure WsSubscription where
  eventTypes : List String
  channels : List String
deriving DecidableEq, Repr

/-- A connected client (`WebSocketClient` plus its socket handle).
`wsOpen` models `ws.readyState === WebSocket.OPEN`. -/
structure WsClient where
  id : String
  tenantId : Option String
  subscriptions : List WsSubscription
  wsOpen : Bool
deriving DecidableEq, Repr

/-- The fields of an outcome event consulted by the broadcaster:
`eventType` and `metadata.tenantId`. -/
structure UpdateMsg where
  eventType : String
  tenantId : Option String
deriving DecidableEq, Repr

/-- JS truthiness of an optional string (`!client.tenantId` is true for
undefined and for the empty string). -/
def truthy (o : Option String) : Bool :=
  match o with
  | none => false
  | some s => !(s.isEmpty)

/-- `WebSocketService.shouldReceiveUpdate` (websocket.service.ts, lines
313-331): some subscription matches the channel, matches the event type
(empty filter matches everything), and passes tenant isolation. -/
def shouldReceiveUpdate (client : WsClient) (channel : String) (u : UpdateMsg) : Bool :=
  client.subscriptions.any (fun sub =>
    let channelMatch := sub.channels.contains channel
    let eventTypeMatch := sub.eventTypes.isEmpty || sub.eventTypes.contains u.eventType
    let tenantMatch := !(truthy client.tenantId) || !(truthy u.tenantId)
      || client.tenantId == u.tenantId
    channelMatch && eventTypeMatch && tenantMatch)

/-- `WebSocketService.broadcastUpdate` (websocket.service.ts, lines
284-311) composed with `sendToClient` (lines 333-345): every connected
client passing `shouldReceiveUpdate` is sent the message, and
`sendToClient` silently drops sockets that are not OPEN.  Returns the ids
of the clients the event is delivered to. -/
def broadcastUpdate (clients : List WsClient) (channel : String) (u : UpdateMsg) :
    List String :=
  (clients.filter (fun c => shouldReceiveUpdate c channel u && c.wsOpen)).map
    (fun c => c.id)

/-- Delivery condition written from the spec, section 3 Subscription
invariant (refinement reference; compared against `shouldReceiveUpdate`
which is translated from the code): some subscription of the connection
has the event's channel, its eventTypes set is empty or has the event's
type, and the connection's tenant id, if set, equals the event's tenant
id, if set. -/
def specShouldDeliver (client : WsClient) (channel : String) (u : UpdateMsg) : Prop :=
  ∃ sub ∈ client.subscriptions,
    channel ∈ sub.channels ∧
    (sub.eventTypes = [] ∨ u.eventType ∈ sub.eventTypes) ∧
    (client.tenantId = none ∨ u.tenantId = none ∨ client.tenantId = u.tenantId)

instance (client : WsClient) (channel : String) (u : UpdateMsg) :
    Decidable (specShouldDeliver client channel u) := by
  unfold specShouldDeliver
  infer_instance

/-! Concrete fixtures used by counterexamples and witnesses.  The item and
order ids must pass the services' uuid validation. -/

/-- Fixture: a valid uuid used as the id of the first test item. -/
def uuidItemA : String := "11111111-1111-1111-8111-111111111111"

/-- Fixture: a valid uuid used as the id of the second test item. -/
def uuidItemB : String := "22222222-2222-2222-8222-222222222222"

/-- Fixture: a valid uuid used as a test order id. -/
def uuidOrder : String := "33333333-3333-3333-8333-333333333333"

/-- Fixture: item A — price 10.00, quantity 5, owned by customer c1
(the I1 of spec section 8, scenario A). -/
def fixItemA : ItemRec :=
  { customerId := "c1", name := "I1", description := none,
    price := 10, quantity := 5, status := "ACTIVE" }

/-- Fixture: item B — price 20.00, quantity 1, owned by customer c1. -/
def fixItemB : ItemRec :=
  { customerId := "c1", name := "Gadget", description := none,
    price := 20, quantity := 1, status := "ACTIVE" }

/-- Fixture: fresh identifiers for order creation. -/
def fixFresh : FreshIds :=
  ⟨uuidOrder, "ORD-TEST-1", fun _ => "oi-0"⟩

/-- Fixture: database with customer c1 owning items A (qty 5) and B (qty 1),
no orders. -/
def fixDbTwoItems : DbState :=
  ⟨["c1"], [(uuidItemA, fixItemA), (uuidItemB, fixItemB)], [], []⟩

/-- Fixture: a two-item order request — 2 units of item A (in stock) then
5 units of item B (only 1 in stock, so validation fails on the last item). -/
def fixReqTwoItems : CreateOrderRequest :=
  ⟨"c1", [⟨uuidItemA, 2⟩, ⟨uuidItemB, 5⟩], none, none, none, none⟩

/-- Fixture: database for spec scenario A — customer c1 with item A only. -/
def fixDbScenarioA : DbState := ⟨["c1"], [(uuidItemA, fixItemA)], [], []⟩

/-- Fixture: scenario A order request — 2 units of item A. -/
def fixReqScenarioA : CreateOrderRequest :=
  ⟨"c1", [⟨uuidItemA, 2⟩], none, none, none, none⟩

/-- Fixture: an orders row in PROCESSING state. -/
def fixOrderProcessing : OrderRec :=
  { customerId := "c1", totalAmount := 32, status := .PROCESSING,
    deliveryDate := none, notes := none, paymentStatus := "PENDING",
    shippingAddress := none, discount := 0, taxAmount := 2,
    shippingCost := 10, orderNumber := "ORD-TEST-1", priority := "NORMAL" }

/-- Fixture: the order line of `fixOrderProcessing` — 2 units of item A. -/
def fixOrderLine : OrderItemRow :=
  { id := "oi-0", orderId := uuidOrder, itemId := uuidItemA, name := "I1",
    description := none, price := 10, quantity := 2, subtotal := 20,
    discountAmount := 0, taxAmount := 2, sku := none }

/-- Fixture: database holding the PROCESSING order with its line, item A
already decremented to 3. -/
def fixDbCancel : DbState :=
  ⟨["c1"], [(uuidItemA, { fixItemA with quantity := 3 })],
   [(uuidOrder, fixOrderProcessing)], [fixOrderLine]⟩

/-- Fixture: an update request asking only for status SHIPPED
(not reachable from PROCESSING). -/
def fixUpdShip : UpdateOrderRequest := ⟨some .SHIPPED, none, none, none, none, none⟩

/-- Fixture: a subscription to the order-updates channel with an empty
eventTypes filter. -/
def fixSubOrders : WsSubscription := ⟨[], ["order-updates"]⟩

/-- Fixture: an open connection with no tenant, subscribed to
order-updates. -/
def fixClientW1 : WsClient := ⟨"w1", none, [fixSubOrders], true⟩

/-- Fixture: an open connection of tenant t2, subscribed to order-updates. -/
def fixClientW2 : WsClient := ⟨"w2", some "t2", [fixSubOrders], true⟩

/-- Fixture: an outcome event of tenant t1. -/
def fixUpdateMsg : UpdateMsg := ⟨"ORDER_CREATED_SUCCESS", some "t1"⟩

/-- Fixture: database with the test order already DELIVERED (cancellation
is not permitted from there). -/
def fixDbDelivered : DbState :=
  ⟨["c1"], [(uuidItemA, fixItemA)],
   [(uuidOrder, { fixOrderProcessing with status := .DELIVERED })], [fixOrderLine]⟩

/-- Fixture: an ORDER_CANCELLED request event for the test order. -/
def fixEvCancel : OrderEventMsg :=
  ⟨"evt-1", "ORDER_CANCELLED", some "corr-1", fixReqScenarioA, uuidOrder,
   none, uuidOrder, fixUpdShip⟩

/-- Fixture: an ORDER_REQUESTED request event for the test order. -/
def fixEvRequested : OrderEventMsg :=
  ⟨"evt-2", "ORDER_REQUESTED", some "corr-2", fixReqScenarioA, uuidOrder,
   none, uuidOrder, fixUpdShip⟩

/-- Fixture: an event of a type the order dispatch does not recognize. -/
def fixEvUnknown : OrderEventMsg :=
  ⟨"evt-3", "ORDER_EXPLODED", some "corr-3", fixReqScenarioA, uuidOrder,
   none, uuidOrder, fixUpdShip⟩

/-- Item-subtotal of a create request, written from the spec: the sum over
the requested items of stored price times requested quantity (refinement
reference for the totals law; prices read from the pre-request state). -/
def specItemSubtotal (s : DbState) (req : CreateOrderRequest) : ℚ :=
  (req.items.map (fun r =>
    (((lookupItem s r.itemId).map (fun it => it.price)).getD 0) * (r.quantity : ℚ))).sum

/-- Fixture: the order-item snapshot produced by scenario A. -/
def fixOrderItemA : OrderItem :=
  { id := "oi-0", itemId := uuidItemA, name := "I1", description := none,
    price := 10, quantity := 2, subtotal := 20, discountAmount := 0,
    taxAmount := 2, sku := none }

/-- Fixture: the orders row produced by scenario A. -/
def fixOrderRecA : OrderRec :=
  { customerId := "c1", totalAmount := 32, status := .PENDING,
    deliveryDate := none, notes := none, paymentStatus := "PENDING",
    shippingAddress := none, discount := 0, taxAmount := 2,
    shippingCost := 10, orderNumber := "ORD-TEST-1", priority := "NORMAL" }

/-- Fixture: the `createOrder` result of scenario A. -/
def fixCreatedA : CreatedOrder := ⟨uuidOrder, fixOrderRecA, [fixOrderItemA]⟩

/-- Fixture: the committed database after scenario A. -/
def fixDbAfterA : DbState :=
  ⟨["c1"], [(uuidItemA, { fixItemA with quantity := 3 })],
   [(uuidOrder, fixOrderRecA)],
   [{ id := "oi-0", orderId := uuidOrder, itemId := uuidItemA, name := "I1",
      description := none, price := 10, quantity := 2, subtotal := 20,
      discountAmount := 0, taxAmount := 2, sku := none }]⟩

/-! Theorems.  Helper lemmas come first, then one theorem per claim plus
the claims' witnesses and counterexamples. -/

/-- The literal uuid of item A passes the services' id validation. -/
theorem uuidA_ok : isValidUuid "11111111-1111-1111-8111-111111111111" = true := by decide

/-- The literal uuid of item B passes the services' id validation. -/
theorem uuidB_ok : isValidUuid "22222222-2222-2222-8222-222222222222" = true := by decide

/-- The literal uuid of the test order passes the services' id validation. -/
theorem uuidO_ok : isValidUuid "33333333-3333-3333-8333-333333333333" = true := by decide

/-- The code's transition predicate coincides with the spec's section 4.3
table. -/
theorem isValidStatusTransition_eq_spec (a b : OrderStatus) :
    isValidStatusTransition a b = specAllowedTransition a b := by
  cases a <;> cases b <;> rfl

/-- C1.  For every order-creation request whose item validation fails on any
one item (for example insufficient stock on the last item of a multi-item
order), createOrder persists zero rows for the order and its line items and
leaves every CustomerItem quantity unchanged, including quantities of items
validated and decremented earlier in the same request — the whole
transaction is aborted and no partial order or partial decrement survives.
This theorem evaluates the code at the claim's own test scenario (failure
injected on the last item of a two-item order): the order and line rows are
indeed absent, but item A's quantity has dropped from 5 to 3 — the
decrement of the earlier item was executed by `updateItemQuantity` on its
own auto-commit connection and survives the rollback, contradicting the
claim (and spec property P4). -/
theorem c1_partial_decrement_survives :
    (createOrder fixDbTwoItems fixReqTwoItems fixFresh).1 =
      .error "Insufficient quantity for item Gadget. Available: 1, Requested: 5"
    ∧ (createOrder fixDbTwoItems fixReqTwoItems fixFresh).2.orders = []
    ∧ (createOrder fixDbTwoItems fixReqTwoItems fixFresh).2.orderItems = []
    ∧ (lookupItem fixDbTwoItems uuidItemA).map (fun r => r.quantity) = some 5
    ∧ (lookupItem (createOrder fixDbTwoItems fixReqTwoItems fixFresh).2 uuidItemA).map
        (fun r => r.quantity) = some 3 :=
  ⟨by rfl, by rfl, by rfl, by rfl, by rfl⟩

/-- C2.  The claim asserts that cancellation's quantity restoration and
status update are executed atomically inside the same Durable Store
transaction (if either fails, neither takes effect).  This theorem evaluates
`cancelOrder` on an order in PROCESSING state with one line of 2 units:
the committed database state reached after the restore loop but before the
transaction COMMIT (`preCommit` — what any concurrent reader, a crash, or a
failed COMMIT exposes) already has the item quantity restored to 5 while
the stored order status is still PROCESSING.  The restores run through
`ItemService.updateItemQuantity` on separate auto-commit connections, not
inside the transaction, contradicting the claim's atomicity requirement.
The remaining conjuncts confirm the parts of the claim the code does meet:
the final state has status CANCELLED and the quantity restored. -/
theorem c2_restore_commits_before_status :
    (lookupItem (cancelOrder fixDbCancel uuidOrder none).preCommit uuidItemA).map
        (fun r => r.quantity) = some 5
    ∧ (lookupOrder (cancelOrder fixDbCancel uuidOrder none).preCommit uuidOrder).map
        (fun r => r.status) = some .PROCESSING
    ∧ (lookupOrder (cancelOrder fixDbCancel uuidOrder none).final uuidOrder).map
        (fun r => r.status) = some .CANCELLED
    ∧ (lookupItem (cancelOrder fixDbCancel uuidOrder none).final uuidItemA).map
        (fun r => r.quantity) = some 5 :=
  ⟨by rfl, by rfl, by rfl, by rfl⟩

/-- C7 counterexample.  Spec scenario A claims the created order's total is
30.00; the code computes 2 x 10.00 + tax 2.0 + shipping 10 = 32.00. -/
theorem c7_total_is_not_30 :
    ¬((createOrder fixDbScenarioA fixReqScenarioA fixFresh).1.map
        (fun c => c.order.totalAmount) = .ok 30) := by
  have h : (createOrder fixDbScenarioA fixReqScenarioA fixFresh).1.map
      (fun c => c.order.totalAmount) = .ok 32 := by
    norm_num [createOrder, createOrderLoop, getCustomerItemByIdM, lookupItem,
      updateItemQuantity, dbSetItemQuantity, insertChecksOk, commitCreatedOrder,
      calculateShippingCost, Except.map, uuidA_ok,
      fixDbScenarioA, fixReqScenarioA, fixFresh, fixItemA, uuidItemA, uuidOrder]
  rw [h]
  intro hc
  have : (32 : ℚ) = 30 := by injection hc
  norm_num at this

/-- C7 amended.  In spec scenario A (item priced 10.00 with quantity 5,
order of 2 units), the created order's total amount is 32.00 — item
subtotal 20.00 plus tax 2.00 plus shipping 10 (subtotal below 50) — and the
item's stored quantity afterwards is 3. -/
theorem c7_scenarioA_total_32_qty_3 :
    (createOrder fixDbScenarioA fixReqScenarioA fixFresh).1.map
        (fun c => (c.order.totalAmount, c.order.taxAmount, c.order.shippingCost))
      = .ok (32, 2, 10)
    ∧ (lookupItem (createOrder fixDbScenarioA fixReqScenarioA fixFresh).2 uuidItemA).map
        (fun r => r.quantity) = some 3 := by
  constructor <;>
    norm_num [createOrder, createOrderLoop, getCustomerItemByIdM, lookupItem,
      updateItemQuantity, dbSetItemQuantity, insertChecksOk, commitCreatedOrder,
      calculateShippingCost, Except.map, uuidA_ok,
      fixDbScenarioA, fixReqScenarioA, fixFresh, fixItemA, uuidItemA, uuidOrder]

/-- List-level form of the quantity update: finding the updated key returns
the old row with the new quantity. -/
theorem find?_setQuantity_self (id : String) (q : ℤ) (l : List (String × ItemRec)) :
    (l.map (fun p => if p.1 == id then (p.1, { p.2 with quantity := q }) else p)).find?
        (fun p => p.1 == id)
      = (l.find? (fun p => p.1 == id)).map (fun p => (p.1, { p.2 with quantity := q })) := by
  induction l with
  | nil => rfl
  | cons p ps ih =>
    simp only [List.map_cons, List.find?_cons]
    by_cases h : (p.1 == id) = true
    · rw [if_pos h]
      simp only [h]
      rfl
    · have hf : (p.1 == id) = false := by
        cases hb : (p.1 == id)
        · rfl
        · exact absurd hb h
      rw [if_neg h]
      simp only [hf]
      exact ih

/-- List-level price preservation of the quantity update. -/
theorem find?_setQuantity_price (id j : String) (q : ℤ) (l : List (String × ItemRec)) :
    ((l.map (fun p => if p.1 == id then (p.1, { p.2 with quantity := q }) else p)).find?
        (fun p => p.1 == j)).map (fun p => p.2.price)
      = (l.find? (fun p => p.1 == j)).map (fun p => p.2.price) := by
  induction l with
  | nil => rfl
  | cons p ps ih =>
    simp only [List.map_cons, List.find?_cons]
    by_cases hj : (p.1 == j) = true
    · by_cases h : (p.1 == id) = true
      · rw [if_pos h]
        simp only [hj]
        rfl
      · rw [if_neg h]
        simp only [hj]
    · have hjf : (p.1 == j) = false := by
        cases hb : (p.1 == j)
        · rfl
        · exact absurd hb hj
      by_cases h : (p.1 == id) = true
      · rw [if_pos h]
        simp only [hjf]
        exact ih
      · rw [if_neg h]
        simp only [hjf]
        exact ih

/-- Updating the quantity of `id` rewrites exactly that row: lookup at `id`
afterwards returns the old row with the new quantity. -/
theorem lookupItem_set_self (s : DbState) (id : String) (q : ℤ) :
    lookupItem (dbSetItemQuantity s id q) id
      = (lookupItem s id).map (fun r => { r with quantity := q }) := by
  unfold lookupItem dbSetItemQuantity
  simp only
  rw [find?_setQuantity_self]
  cases List.find? (fun p => p.1 == id) s.items <;> rfl

/-- Updating the quantity of a row never changes any row's price. -/
theorem lookupItem_set_price (s : DbState) (id j : String) (q : ℤ) :
    (lookupItem (dbSetItemQuantity s id q) j).map (fun r => r.price)
      = (lookupItem s j).map (fun r => r.price) := by
  unfold lookupItem dbSetItemQuantity
  simp only
  rw [Option.map_map, Option.map_map]
  simp only [Function.comp_def]
  exact find?_setQuantity_price id j q s.items

/-- A successful `updateItemQuantity` leaves the state either untouched or
with exactly one quantity rewritten. -/
theorem updateItemQuantity_state_shape (s : DbState) (id : String) (q : ℤ)
    (op : QtyOp) (x : Option ItemRec) (s2 : DbState)
    (h : updateItemQuantity s id q op = .ok (x, s2)) :
    s2 = s ∨ ∃ nq, s2 = dbSetItemQuantity s id nq := by
  unfold updateItemQuantity at h
  split at h
  · cases h
  · split at h
    · cases h
      exact .inl rfl
    · split at h
      all_goals
        simp only [] at h
        split at h
        · cases h
        · cases h
          exact .inr ⟨_, rfl⟩

/-- A successful `updateItemQuantity` never changes any item's price. -/
theorem updateItemQuantity_preserves_price (s : DbState) (id : String) (q : ℤ)
    (op : QtyOp) (x : Option ItemRec) (s2 : DbState)
    (h : updateItemQuantity s id q op = .ok (x, s2)) (j : String) :
    (lookupItem s2 j).map (fun r => r.price) = (lookupItem s j).map (fun r => r.price) := by
  rcases updateItemQuantity_state_shape s id q op x s2 h with h1 | ⟨nq, h2⟩
  · rw [h1]
  · rw [h2]
    exact lookupItem_set_price ..

/-- C10.  For every existing CustomerItem with stored quantity q0 and every
requested amount q at least 0, updateItemQuantity(id, q, subtract) sets the
stored quantity to max(0, q0 - q): oversubtraction silently clamps to zero
instead of raising, and the internal "Quantity cannot be negative" check is
unreachable for the subtract operation (for any state, id and amount). -/
theorem c10_subtract_clamps_at_zero (s : DbState) (id : String) (q : ℤ) (r0 : ItemRec)
    (hvalid : isValidUuid id = true)
    (hfound : lookupItem s id = some r0)
    (_hq : 0 ≤ q) :
    updateItemQuantity s id q .subtract
      = .ok (some { r0 with quantity := max 0 (r0.quantity - q) },
             dbSetItemQuantity s id (max 0 (r0.quantity - q)))
    ∧ ∀ (s' : DbState) (id' : String) (q' : ℤ),
        updateItemQuantity s' id' q' .subtract ≠ .error "Quantity cannot be negative" := by
  constructor
  · unfold updateItemQuantity
    rw [hvalid, hfound]
    simp only [Bool.not_true, Bool.false_eq_true, if_false]
    rw [if_neg (by simp [le_max_left])]
    rw [lookupItem_set_self, hfound]
    rfl
  · intro s' id' q'
    unfold updateItemQuantity
    split
    · simp
    · split
      · simp
      · rw [if_neg (by simp [le_max_left])]
        simp

/-- C10 witness: subtracting 7 from item A's stock of 5 succeeds and clamps
the stored quantity to 0. -/
theorem c10_witness :
    updateItemQuantity fixDbTwoItems uuidItemA 7 .subtract
      = .ok (some { fixItemA with quantity := 0 },
             dbSetItemQuantity fixDbTwoItems uuidItemA 0)
    ∧ ∀ (s' : DbState) (id' : String) (q' : ℤ),
        updateItemQuantity s' id' q' .subtract ≠ .error "Quantity cannot be negative" := by
  have h := c10_subtract_clamps_at_zero fixDbTwoItems uuidItemA 7 fixItemA
    (by decide) (by decide) (by decide)
  simpa using h

/-- C3.  For every (from, to) pair of order statuses not in the transition
table of spec section 4.3, updateOrder on an existing order in status
"from" requesting status "to" fails with an explicit error naming the
source and target state and leaves the stored order (status and all other
fields — the returned state is exactly the input state) unchanged; it does
not silently clamp or ignore the status field. -/
theorem c3_invalid_transition_rejected (s : DbState) (id : String)
    (u : UpdateOrderRequest) (existing : OrderRec) (tgt : OrderStatus)
    (hvalid : isValidUuid id = true)
    (hfound : lookupOrder s id = some existing)
    (hstatus : u.status = some tgt)
    (hnotallowed : specAllowedTransition existing.status tgt = false) :
    updateOrder s id u
      = (.error ("Invalid status transition from " ++ statusName existing.status
          ++ " to " ++ statusName tgt), s) := by
  unfold updateOrder
  rw [hvalid, hfound, hstatus]
  simp only [Bool.not_true, Bool.false_eq_true, if_false]
  rw [isValidStatusTransition_eq_spec, hnotallowed]
  simp only [Bool.not_false, if_true]

/-- C3 witness: PROCESSING to SHIPPED is not in the table; the update on the
stored PROCESSING order fails with the naming error and the state is
untouched. -/
theorem c3_witness :
    updateOrder fixDbCancel uuidOrder fixUpdShip
      = (.error "Invalid status transition from PROCESSING to SHIPPED", fixDbCancel) := by
  have h := c3_invalid_transition_rejected fixDbCancel uuidOrder fixUpdShip
    fixOrderProcessing .SHIPPED (by decide) (by decide) (by rfl) (by decide)
  simpa using h

/-- C8.  For every cache key and value, an error raised by the underlying
cache connection during get is caught and the call returns null (a cache
miss), and an error during set is caught and the call returns false (a
no-op); in neither case does the error propagate (both functions are total
with those return values). -/
theorem c8_cache_errors_degrade {α : Type} (decode : String → Option α)
    (key e k2 v : String) (ttl : Option Nat) :
    redisGet (fun _ => RedisGetConn.connError e) decode key = none
    ∧ redisSet (Except.error e) k2 v ttl = false :=
  ⟨rfl, rfl⟩

/-- For tenant ids that are not the empty string (the only values the
source can store — JS falsy chains turn empty strings into undefined),
JS-truthiness falsity coincides with absence. -/
theorem truthy_eq_false_iff (a : Option String) (h : a ≠ some "") :
    truthy a = false ↔ a = none := by
  cases a with
  | none => simp [truthy]
  | some s =>
    simp only [truthy]
    constructor
    · intro hs
      exfalso
      apply h
      have : s.isEmpty = true := by
        cases hb : s.isEmpty
        · rw [hb] at hs
          simp at hs
        · rfl
      rw [String.isEmpty_iff] at this
      rw [this]
    · intro hs
      cases hs

/-- The code's delivery filter coincides with the spec's subscription
invariant whenever neither tenant field is the empty string. -/
theorem shouldReceiveUpdate_iff_spec (c : WsClient) (channel : String) (u : UpdateMsg)
    (hct : c.tenantId ≠ some "") (hut : u.tenantId ≠ some "") :
    shouldReceiveUpdate c channel u = true ↔ specShouldDeliver c channel u := by
  unfold shouldReceiveUpdate specShouldDeliver
  rw [List.any_eq_true]
  constructor
  · rintro ⟨sub, hsub, hpred⟩
    refine ⟨sub, hsub, ?_, ?_, ?_⟩
    · have := (Bool.and_eq_true ..).mp hpred
      have hch := ((Bool.and_eq_true ..).mp this.1).1
      exact (List.elem_iff).mp hch
    · have := (Bool.and_eq_true ..).mp hpred
      have het := ((Bool.and_eq_true ..).mp this.1).2
      rcases (Bool.or_eq_true ..).mp het with hemp | hmem
      · exact .inl (List.isEmpty_iff.mp hemp)
      · exact .inr ((List.elem_iff).mp hmem)
    · have hten := ((Bool.and_eq_true ..).mp hpred).2
      rcases (Bool.or_eq_true ..).mp hten with hor | heq
      · rcases (Bool.or_eq_true ..).mp hor with hta | htb
        · exact .inl ((truthy_eq_false_iff c.tenantId hct).mp (by
            cases hb : truthy c.tenantId
            · rfl
            · rw [hb] at hta
              simp at hta))
        · refine .inr (.inl ((truthy_eq_false_iff u.tenantId hut).mp (by
            cases hb : truthy u.tenantId
            · rfl
            · rw [hb] at htb
              simp at htb)))
      · exact .inr (.inr (by
          have := (beq_iff_eq ..).mp heq
          exact this))
  · rintro ⟨sub, hsub, hch, het, hten⟩
    refine ⟨sub, hsub, ?_⟩
    simp only [Bool.and_eq_true, Bool.or_eq_true]
    refine ⟨⟨(List.elem_iff).mpr hch, ?_⟩, ?_⟩
    · rcases het with hemp | hmem
      · exact .inl (List.isEmpty_iff.mpr hemp)
      · exact .inr ((List.elem_iff).mpr hmem)
    · rcases hten with hta | htb | heq
      · exact .inl (.inl (by
          rw [(truthy_eq_false_iff c.tenantId hct).mpr hta]
          rfl))
      · exact .inl (.inr (by
          rw [(truthy_eq_false_iff u.tenantId hut).mpr htb]
          rfl))
      · exact .inr ((beq_iff_eq ..).mpr heq)

/-- Broadcast delivers to the id of a connection in the client map exactly
when the code's filter and the OPEN check both pass (ids unique, as in the
source's Map keyed by connection id). -/
theorem mem_broadcastUpdate_iff (clients : List WsClient) (channel : String)
    (u : UpdateMsg) (c : WsClient) (hc : c ∈ clients)
    (hnodup : (clients.map (fun x => x.id)).Nodup) :
    c.id ∈ broadcastUpdate clients channel u
      ↔ (shouldReceiveUpdate c channel u && c.wsOpen) = true := by
  unfold broadcastUpdate
  rw [List.mem_map]
  constructor
  · rintro ⟨c2, hmem, hid⟩
    rw [List.mem_filter] at hmem
    have : c2 = c := List.inj_on_of_nodup_map hnodup hmem.1 hc hid
    rw [this] at hmem
    exact hmem.2
  · intro hpred
    exact ⟨c, List.mem_filter.mpr ⟨hc, hpred⟩, rfl⟩

/-- C9.  For every live (OPEN) connection in the broadcaster's client map
and every outcome event broadcast on a channel, the event is delivered to
the connection if and only if some subscription of that connection
satisfies all three of: its channels contain the event's channel, its
eventTypes set is empty or contains the event's eventType, and tenant
isolation holds (the connection's tenantId, if set, equals the event's
tenantId, if set; a missing tenantId on either side permits delivery).
Tenant ids are quantified over the values the source can produce (never the
empty string, which JS truthiness would conflate with absence). -/
theorem c9_delivery_iff_subscription_match (clients : List WsClient)
    (channel : String) (u : UpdateMsg) (c : WsClient)
    (hc : c ∈ clients)
    (hnodup : (clients.map (fun x => x.id)).Nodup)
    (hopen : c.wsOpen = true)
    (hct : c.tenantId ≠ some "")
    (hut : u.tenantId ≠ some "") :
    c.id ∈ broadcastUpdate clients channel u ↔ specShouldDeliver c channel u := by
  rw [mem_broadcastUpdate_iff clients channel u c hc hnodup]
  rw [Bool.and_eq_true]
  rw [← shouldReceiveUpdate_iff_spec c channel u hct hut]
  constructor
  · intro h
    exact h.1
  · intro h
    exact ⟨h, hopen⟩

/-- C9 witness: the untenanted open connection w1 subscribed to
order-updates receives a t1-tenant event on that channel; the theorem's
hypotheses hold for the two-client map by computation. -/
theorem c9_witness :
    "w1" ∈ broadcastUpdate [fixClientW1, fixClientW2] "order-updates" fixUpdateMsg := by
  have h := c9_delivery_iff_subscription_match [fixClientW1, fixClientW2]
    "order-updates" fixUpdateMsg fixClientW1
    (by simp) (by simp [fixClientW1, fixClientW2]) (by rfl) (by simp [fixClientW1]) (by
      simp [fixUpdateMsg])
  exact h.mpr (by decide)

/-- C4.  For every event dequeued from the order request topic (with the
producer connected so an outcome can be emitted): if its eventType is one
of the recognized types, exactly one outcome event is published, to the
paired outcome topic order-updates, carrying success, data, optional error,
and an originalEvent whose eventId equals the request's eventId and whose
correlationId equals the request's correlationId; if the eventType is
unrecognized, the event is dropped (the handler returns normally) and no
outcome event is published. -/
theorem c4_exactly_one_outcome (k : KafkaState) (s : DbState) (ev : OrderEventMsg)
    (fresh : FreshIds) (hconn : k.connected = true) :
    (orderRequestTypes.contains ev.eventType = true →
      ∃ e, (handleOrderEvent k s (.ok ev) fresh).published = [e]
        ∧ e.topic = orderUpdatesTopic
        ∧ e.original.eventId = ev.eventId
        ∧ e.original.eventType = ev.eventType
        ∧ e.original.correlationId = ev.correlationId)
    ∧ (orderRequestTypes.contains ev.eventType = false →
      (handleOrderEvent k s (.ok ev) fresh).published = []
        ∧ (handleOrderEvent k s (.ok ev) fresh).result = .ok ()) := by
  constructor
  · intro hrec
    unfold handleOrderEvent
    simp only []
    rw [hrec]
    simp only [Bool.not_true, Bool.false_eq_true, if_false]
    unfold publishUpdateEvent
    rw [hconn]
    simp only [if_true]
    exact ⟨_, rfl, rfl, rfl, rfl, rfl⟩
  · intro hrec
    unfold handleOrderEvent
    simp only []
    rw [hrec]
    simp only [Bool.not_false, if_true]
    exact ⟨by trivial, by trivial⟩

/-- C4 witness: with a connected producer, an ORDER_REQUESTED event yields
exactly one outcome on order-updates with matching correlation identity,
and an ORDER_EXPLODED event yields none. -/
theorem c4_witness :
    (∃ e, (handleOrderEvent ⟨true⟩ fixDbTwoItems (.ok fixEvRequested) fixFresh).published = [e]
      ∧ e.topic = orderUpdatesTopic
      ∧ e.original.eventId = "evt-2"
      ∧ e.original.eventType = "ORDER_REQUESTED"
      ∧ e.original.correlationId = some "corr-2")
    ∧ (handleOrderEvent ⟨true⟩ fixDbTwoItems (.ok fixEvUnknown) fixFresh).published = [] := by
  refine ⟨?_, ?_⟩
  · exact (c4_exactly_one_outcome ⟨true⟩ fixDbTwoItems fixEvRequested fixFresh rfl).1
      (by decide)
  · exact ((c4_exactly_one_outcome ⟨true⟩ fixDbTwoItems fixEvUnknown fixFresh rfl).2
      (by decide)).1

/-- C5 counterexample.  The claim says every consumed message whose handler
throws leaves the poll loop intact: the error is logged, a _FAILED outcome
is published, and the loop continues without re-raising.  Concretely, a
message whose payload is not valid JSON makes `JSON.parse` inside the
handler throw; the handler's outer catch rethrows, the `eachMessage`
wrapper of kafka.ts logs and rethrows again, and no outcome event of any
kind is published. -/
theorem c5_parse_error_rethrown_nothing_published :
    (handleOrderEvent ⟨true⟩ fixDbTwoItems
        (.error "Unexpected token o in JSON at position 1") fixFresh).result
      = .error "Unexpected token o in JSON at position 1"
    ∧ (handleOrderEvent ⟨true⟩ fixDbTwoItems
        (.error "Unexpected token o in JSON at position 1") fixFresh).published = []
    ∧ eachMessageRun (handleOrderEvent ⟨true⟩ fixDbTwoItems
        (.error "Unexpected token o in JSON at position 1") fixFresh).result
      = .error "Unexpected token o in JSON at position 1" :=
  ⟨rfl, rfl, rfl⟩

/-- C5 amended.  With a connected producer, every successfully parsed
message is handled without crashing (domain-service throws are absorbed by
the inner catch): the handler returns normally, and when the service call
for a recognized event type throws, exactly one outcome event is published
whose event type is the `_FAILED` failure tag for that request type and
which carries the thrown message.  However, an exception that escapes the
handler itself (such as a payload parse failure or a publish failure) is
logged and re-raised by the `eachMessage` wrapper, not absorbed. -/
theorem c5_failed_outcome_for_service_errors (k : KafkaState) (s : DbState)
    (ev : OrderEventMsg) (fresh : FreshIds) (hconn : k.connected = true) :
    (handleOrderEvent k s (.ok ev) fresh).result = .ok ()
    ∧ (∀ m s2, orderRequestTypes.contains ev.eventType = true →
        runOrderService s ev fresh = .error (m, s2) →
        (handleOrderEvent k s (.ok ev) fresh).published
          = [⟨orderUpdatesTopic, getOrderFailureEventType ev.eventType, false,
              .serviceError m, some m, ⟨ev.eventId, ev.eventType, ev.correlationId⟩⟩]
        ∧ ∃ pre, getOrderFailureEventType ev.eventType = pre ++ "_FAILED")
    ∧ (∀ e, eachMessageRun (.error e) = .error e) := by
  refine ⟨?_, ?_, fun e => rfl⟩
  · unfold handleOrderEvent
    simp only []
    by_cases hrec : orderRequestTypes.contains ev.eventType = true
    · rw [hrec]
      simp only [Bool.not_true, Bool.false_eq_true, if_false]
      unfold publishUpdateEvent
      rw [hconn]
      simp only [if_true]
    · rw [Bool.eq_false_iff.mpr (fun hx => hrec hx)]
      simp only [Bool.not_false, if_true]
  · intro m s2 hrec hrun
    unfold handleOrderEvent
    simp only []
    rw [hrec]
    simp only [Bool.not_true, Bool.false_eq_true, if_false]
    rw [hrun]
    unfold publishUpdateEvent
    rw [hconn]
    simp only [if_true]
    refine ⟨by trivial, ?_⟩
    have hmem : ev.eventType ∈ orderRequestTypes := List.elem_iff.mp hrec
    unfold orderRequestTypes at hmem
    simp only [List.mem_cons, List.not_mem_nil, or_false] at hmem
    rcases hmem with h | h | h | h | h <;>
      · rw [h]
        unfold getOrderFailureEventType
        first
          | exact ⟨"ORDER_CREATED", by rfl⟩
          | exact ⟨"ORDER_UPDATED", by rfl⟩
          | exact ⟨"ORDER_CANCEL", by rfl⟩
          | exact ⟨"ORDER_DELETE", by rfl⟩

/-- C5 amended witness: cancelling a DELIVERED order makes the domain
service throw; with a connected producer the handler returns normally and
publishes exactly one ORDER_CANCEL_FAILED outcome carrying the message. -/
theorem c5_witness :
    (handleOrderEvent ⟨true⟩ fixDbDelivered (.ok fixEvCancel) fixFresh).result = .ok ()
    ∧ (handleOrderEvent ⟨true⟩ fixDbDelivered (.ok fixEvCancel) fixFresh).published
      = [⟨orderUpdatesTopic, getOrderFailureEventType "ORDER_CANCELLED", false,
          .serviceError "Order with status DELIVERED cannot be cancelled",
          some "Order with status DELIVERED cannot be cancelled",
          ⟨"evt-1", "ORDER_CANCELLED", some "corr-1"⟩⟩] := by
  have h := c5_failed_outcome_for_service_errors ⟨true⟩ fixDbDelivered fixEvCancel
    fixFresh rfl
  refine ⟨h.1, ?_⟩
  have h2 := (h.2.1 "Order with status DELIVERED cannot be cancelled" fixDbDelivered
    (by decide) (by rfl)).1
  exact h2

/-- A successful item read through the item service means the committed
SELECT found the row. -/
theorem getCustomerItemByIdM_ok_some (s : DbState) (id : String) (item : ItemRec)
    (h : getCustomerItemByIdM s id = .ok (some item)) : lookupItem s id = some item := by
  unfold getCustomerItemByIdM at h
  split at h
  · cases h
  · injection h

/-- Invariants of the per-item loop of `createOrder`: it never changes any
item's price, the subtotals of the produced snapshots sum to the sum of
stored price times requested quantity over the request (prices read in the
entry state), and the snapshot taxes sum to one tenth of the subtotal sum. -/
theorem createOrderLoop_sums (custId : String) (gen : Nat → String) :
    ∀ (reqs : List CreateOrderItemReq) (idx : Nat) (s s2 : DbState) (ois : List OrderItem),
      createOrderLoop custId gen s idx reqs = .ok (s2, ois) →
      (∀ j, (lookupItem s2 j).map (fun r => r.price) = (lookupItem s j).map (fun r => r.price))
      ∧ (ois.map (fun oi => oi.subtotal)).sum
          = (reqs.map (fun r =>
              (((lookupItem s r.itemId).map (fun it => it.price)).getD 0) * (r.quantity : ℚ))).sum
      ∧ (ois.map (fun oi => oi.taxAmount)).sum
          = (ois.map (fun oi => oi.subtotal)).sum * (1/10)
  | [], idx, s, s2, ois, h => by
    unfold createOrderLoop at h
    cases h
    simp
  | r :: rest, idx, s, s2, ois, h => by
    unfold createOrderLoop at h
    cases hg : getCustomerItemByIdM s r.itemId with
    | error e =>
      rw [hg] at h
      simp at h
    | ok found =>
      cases found with
      | none =>
        rw [hg] at h
        simp at h
      | some item =>
        rw [hg] at h
        simp only [] at h
        split at h
        · simp at h
        · split at h
          · simp at h
          · cases hu : updateItemQuantity s r.itemId r.quantity .subtract with
            | error e =>
              rw [hu] at h
              simp at h
            | ok pr =>
              cases pr with
              | mk x sMid =>
                rw [hu] at h
                simp only [] at h
                cases hl : createOrderLoop custId gen sMid (idx + 1) rest with
                | error es =>
                  rw [hl] at h
                  simp at h
                | ok pr2 =>
                  cases pr2 with
                  | mk s3 ois2 =>
                    rw [hl] at h
                    simp only [] at h
                    cases h
                    have IH := createOrderLoop_sums custId gen rest (idx + 1) sMid s2 ois2 hl
                    have hpres : ∀ j, (lookupItem sMid j).map (fun it => it.price)
                        = (lookupItem s j).map (fun it => it.price) :=
                      updateItemQuantity_preserves_price s r.itemId r.quantity .subtract x sMid hu
                    have hlook : lookupItem s r.itemId = some item :=
                      getCustomerItemByIdM_ok_some s r.itemId item hg
                    refine ⟨fun j => (IH.1 j).trans (hpres j), ?_, ?_⟩
                    · simp only [List.map_cons, List.sum_cons]
                      have hrest : (rest.map (fun r2 =>
                            (((lookupItem sMid r2.itemId).map (fun it => it.price)).getD 0)
                              * (r2.quantity : ℚ)))
                          = (rest.map (fun r2 =>
                            (((lookupItem s r2.itemId).map (fun it => it.price)).getD 0)
                              * (r2.quantity : ℚ))) := by
                        refine List.map_eq_map_iff.mpr ?_
                        intro a _
                        rw [hpres a.itemId]
                      rw [IH.2.1, hrest, hlook]
                      rfl
                    · simp only [List.map_cons, List.sum_cons]
                      rw [IH.2.2]
                      ring

/-- C6.  For every order created from a CreateOrderRequest, the persisted
total_amount equals the sum of item subtotals (stored price times requested
quantity) plus tax equal to 10 percent of the item subtotal, plus a
shipping cost determined only by the item-subtotal band (at least 100: free;
at least 50 and below 100: 5; below 50: 10), minus the discount, which is 0
at creation. -/
theorem c6_total_amount_formula (s : DbState) (req : CreateOrderRequest)
    (fresh : FreshIds) (created : CreatedOrder) (s2 : DbState)
    (h : createOrder s req fresh = (.ok created, s2)) :
    created.order.discount = 0
    ∧ created.order.totalAmount
        = specItemSubtotal s req + (1/10) * specItemSubtotal s req
          + calculateShippingCost (specItemSubtotal s req) - created.order.discount
    ∧ (100 ≤ specItemSubtotal s req → calculateShippingCost (specItemSubtotal s req) = 0)
    ∧ (50 ≤ specItemSubtotal s req ∧ specItemSubtotal s req < 100 →
        calculateShippingCost (specItemSubtotal s req) = 5)
    ∧ (specItemSubtotal s req < 50 → calculateShippingCost (specItemSubtotal s req) = 10) := by
  have hship : (100 ≤ specItemSubtotal s req → calculateShippingCost (specItemSubtotal s req) = 0)
      ∧ (50 ≤ specItemSubtotal s req ∧ specItemSubtotal s req < 100 →
          calculateShippingCost (specItemSubtotal s req) = 5)
      ∧ (specItemSubtotal s req < 50 → calculateShippingCost (specItemSubtotal s req) = 10) := by
    unfold calculateShippingCost
    refine ⟨fun hge => ?_, fun hmid => ?_, fun hlt => ?_⟩
    · rw [if_pos (by exact hge)]
    · rw [if_neg (by exact not_le.mpr hmid.2), if_pos (by exact hmid.1)]
    · rw [if_neg (by linarith), if_neg (by exact not_le.mpr hlt)]
  unfold createOrder at h
  split at h
  · exact absurd (congrArg Prod.fst h) (by simp)
  · cases hl : createOrderLoop req.customerId fresh.itemIdGen s 0 req.items with
    | error es =>
      rw [hl] at h
      cases es with
      | mk e sx =>
        simp only [] at h
        exact absurd (congrArg Prod.fst h) (by simp)
    | ok pr =>
      cases pr with
      | mk sMid ois =>
        rw [hl] at h
        simp only [] at h
        split at h
        · cases h
          have HL := createOrderLoop_sums req.customerId fresh.itemIdGen req.items 0 s sMid ois hl
          have hsub : (ois.map (fun oi => oi.subtotal)).sum = specItemSubtotal s req := by
            rw [HL.2.1]
            rfl
          have htax : (ois.map (fun oi => oi.taxAmount)).sum
              = specItemSubtotal s req * (1/10) := by
            rw [HL.2.2, hsub]
          refine ⟨rfl, ?_, hship⟩
          show (ois.map (fun oi => oi.subtotal)).sum + (ois.map (fun oi => oi.taxAmount)).sum
              + calculateShippingCost ((ois.map (fun oi => oi.subtotal)).sum)
            = specItemSubtotal s req + (1/10) * specItemSubtotal s req
              + calculateShippingCost (specItemSubtotal s req) - 0
          rw [hsub, htax]
          ring
        · exact absurd (congrArg Prod.fst h) (by simp)

/-- Concrete evaluation of scenario A: creating 2 units of the 10.00 item
succeeds with total 32, leaving stock 3. -/
theorem createOrder_scenarioA_eval :
    createOrder fixDbScenarioA fixReqScenarioA fixFresh = (.ok fixCreatedA, fixDbAfterA) := by
  norm_num [createOrder, createOrderLoop, getCustomerItemByIdM, lookupItem,
    updateItemQuantity, dbSetItemQuantity, insertChecksOk, commitCreatedOrder,
    calculateShippingCost, toOrderItemRow, uuidA_ok,
    fixDbScenarioA, fixReqScenarioA, fixFresh, fixItemA, uuidItemA, uuidOrder,
    fixCreatedA, fixDbAfterA, fixOrderRecA, fixOrderItemA]

/-- C6 witness: the totals law instantiated at scenario A through the
concrete run of `createOrder`. -/
theorem c6_witness :
    fixCreatedA.order.discount = 0
    ∧ fixCreatedA.order.totalAmount
        = specItemSubtotal fixDbScenarioA fixReqScenarioA
          + (1/10) * specItemSubtotal fixDbScenarioA fixReqScenarioA
          + calculateShippingCost (specItemSubtotal fixDbScenarioA fixReqScenarioA)
          - fixCreatedA.order.discount
    ∧ (100 ≤ specItemSubtotal fixDbScenarioA fixReqScenarioA →
        calculateShippingCost (specItemSubtotal fixDbScenarioA fixReqScenarioA) = 0)
    ∧ (50 ≤ specItemSubtotal fixDbScenarioA fixReqScenarioA
        ∧ specItemSubtotal fixDbScenarioA fixReqScenarioA < 100 →
        calculateShippingCost (specItemSubtotal fixDbScenarioA fixReqScenarioA) = 5)
    ∧ (specItemSubtotal fixDbScenarioA fixReqScenarioA < 50 →
        calculateShippingCost (specItemSubtotal fixDbScenarioA fixReqScenarioA) = 10) :=
  c6_total_amount_formula fixDbScenarioA fixReqScenarioA fixFresh fixCreatedA fixDbAfterA
    createOrder_scenarioA_eval

end OB
